import Mathlib

/-!
Verification of the StockSense orchestration core against its specification.

The definitions below are a shallow embedding of the Python sources:
machine floats are modelled as rationals, dictionaries with optional keys as
structures with `Option` fields, and every external call (LLM completion,
news/price fetch, database write) as an explicit oracle argument or an
explicit action in a trace.  Each theorem states one claim about the
embedded code.
-/

namespace StockSense

/-! ## Synthesizer (src/stocksense/agents/synthesizer.py) -/

/-- Evaluation of how well a claim is supported by data
(dataclass `EvidenceGrade`). -/
structure EvidenceGrade where
  claim : String
  source_agent : String
  has_counter_evidence : Bool
  data_support_score : ℚ
  rebuttal_strength : ℚ
  final_credibility : ℚ
deriving DecidableEq

/-- An analyst claim as consumed by `_grade_evidence`
(dict with keys `statement` and `confidence`). -/
structure ClaimD where
  statement : String
  confidence : ℚ
deriving DecidableEq

/-- A rebuttal dict with keys `target_claim`, `counter_argument`,
`counter_evidence`, `strength`. -/
structure RebuttalD where
  target_claim : String
  counter_argument : String
  counter_evidence : Option String
  strength : ℚ
deriving DecidableEq

/-- A bull or bear case dict, restricted to the keys the Synthesizer reads:
`thesis`, `key_claims`, `confidence`. -/
structure CaseD where
  thesis : String
  key_claims : List ClaimD
  confidence : ℚ
deriving DecidableEq

/-- Python `w in t` substring test on strings. -/
def pyIn (w t : String) : Bool :=
  t.toList.tails.any (fun suffix => w.toList.isPrefixOf suffix)

/-- Python `str.split()` with no separator: split on whitespace, dropping
empty pieces. -/
def pySplit (s : String) : List String :=
  (s.split Char.isWhitespace).filter (fun w => w ≠ "")

/-- `Synthesizer._find_matching_rebuttal`: return the first rebuttal whose
`target_claim` contains any of the first three words of the claim text
(lexical-overlap matching, lowercased). -/
def find_matching_rebuttal (claim : ClaimD) (rebuttals : List RebuttalD) :
    Option RebuttalD :=
  let claim_text := claim.statement.toLower
  rebuttals.find? (fun r =>
    let target := r.target_claim.toLower
    ((pySplit claim_text).take 3).any (fun word => pyIn word target))

/-- `Synthesizer._calculate_credibility`:
`credibility = claim_confidence * (1 - rebuttal_strength * 0.5)`. -/
def calculate_credibility (claim_confidence rebuttal_strength : ℚ) : ℚ :=
  claim_confidence * (1 - rebuttal_strength * (1/2))

/-- One iteration of the grading loops in `Synthesizer._grade_evidence`. -/
def gradeClaim (agent : String) (opposing_rebuttals : List RebuttalD)
    (claim : ClaimD) : EvidenceGrade :=
  let rebuttal := find_matching_rebuttal claim opposing_rebuttals
  { claim := claim.statement
    source_agent := agent
    has_counter_evidence := rebuttal.isSome
    data_support_score := claim.confidence
    rebuttal_strength := (rebuttal.map (fun r => r.strength)).getD 0
    final_credibility :=
      calculate_credibility claim.confidence
        ((rebuttal.map (fun r => r.strength)).getD 0) }

/-- `Synthesizer._grade_evidence`: grade every bull claim against the bear
rebuttals, then every bear claim against the bull rebuttals. -/
def grade_evidence (bull_case bear_case : CaseD)
    (bull_rebuttals bear_rebuttals : List RebuttalD) : List EvidenceGrade :=
  (bull_case.key_claims.map (gradeClaim "bull" bear_rebuttals)) ++
    (bear_case.key_claims.map (gradeClaim "bear" bull_rebuttals))

/-- `Synthesizer._calculate_argument_strength`: mean `final_credibility` of
the grades attributed to `source`, or `0.5` when there are none. -/
def calculate_argument_strength (grades : List EvidenceGrade)
    (source : String) : ℚ :=
  let agent_grades := grades.filter (fun g => g.source_agent == source)
  if agent_grades.isEmpty then 1/2
  else ((agent_grades.map (fun g => g.final_credibility)).sum) /
    (agent_grades.length : ℚ)

/-- The JSON object returned by `Synthesizer._generate_synthesis` (keys may
be missing, hence `Option`).  Its internal failure branch corresponds to the
record with values `0.33 / 0.34 / 0.33 / "Hold" / 0.5` all present. -/
structure SynthesisOutput where
  bull_probability : Option ℚ
  base_probability : Option ℚ
  bear_probability : Option ℚ
  recommendation : Option String
  conviction : Option ℚ
  decisive_factors : Option (List String)
  unresolved_questions : Option (List String)
  reasoning : Option String
deriving DecidableEq

/-- The final verdict (dataclass `SynthesizedVerdict`), without the
identification fields that are fresh per run (uuid, timestamp). -/
structure SynthesizedVerdict where
  ticker : String
  bull_probability : ℚ
  base_probability : ℚ
  bear_probability : ℚ
  recommendation : String
  conviction : ℚ
  bull_argument_strength : ℚ
  bear_argument_strength : ℚ
  evidence_grades : List EvidenceGrade
  decisive_factors : List String
  unresolved_questions : List String
  bull_summary : String
  bear_summary : String
  synthesis_reasoning : String
deriving DecidableEq

/-- `Synthesizer._fallback_synthesis`: the stub verdict used when the LLM is
unavailable. -/
def fallback_synthesis (ticker : String) (bull_case bear_case : CaseD) :
    SynthesizedVerdict :=
  { ticker := ticker
    bull_probability := 33/100
    base_probability := 34/100
    bear_probability := 33/100
    recommendation := "Hold"
    conviction := 3/10
    bull_argument_strength := 1/2
    bear_argument_strength := 1/2
    evidence_grades := []
    decisive_factors := ["LLM unavailable - manual review required"]
    unresolved_questions := ["Full AI analysis unavailable"]
    bull_summary := bull_case.thesis
    bear_summary := bear_case.thesis
    synthesis_reasoning :=
      "Automated synthesis unavailable. Please review Bull and Bear cases manually." }

/-- `Synthesizer.synthesize`.  `llmAvailable` models `self.llm` being set;
`synthesis` is the dict produced by `_generate_synthesis` (the completion
service output, exogenous here). -/
def synthesize (ticker : String) (bull_case bear_case : CaseD)
    (bull_rebuttals bear_rebuttals : List RebuttalD)
    (llmAvailable : Bool) (synthesis : SynthesisOutput) : SynthesizedVerdict :=
  if !llmAvailable then fallback_synthesis ticker bull_case bear_case
  else
    let evidence_grades :=
      grade_evidence bull_case bear_case bull_rebuttals bear_rebuttals
    let bull_strength := calculate_argument_strength evidence_grades "bull"
    let bear_strength := calculate_argument_strength evidence_grades "bear"
    { ticker := ticker
      bull_probability := synthesis.bull_probability.getD (33/100)
      base_probability := synthesis.base_probability.getD (34/100)
      bear_probability := synthesis.bear_probability.getD (33/100)
      recommendation := synthesis.recommendation.getD "Hold"
      conviction := synthesis.conviction.getD (1/2)
      bull_argument_strength := bull_strength
      bear_argument_strength := bear_strength
      evidence_grades := evidence_grades
      decisive_factors := synthesis.decisive_factors.getD []
      unresolved_questions := synthesis.unresolved_questions.getD []
      bull_summary := bull_case.thesis
      bear_summary := bear_case.thesis
      synthesis_reasoning := synthesis.reasoning.getD "" }

/-! ## Kill-criteria monitor (src/stocksense/core/monitor.py and
src/stocksense/scheduler.py) -/

/-- A potential match between a signal and kill criteria
(dataclass `KillCriteriaMatch`). -/
structure KillCriteriaMatch where
  criteria : String
  signal : String
  match_confidence : ℚ
  explanation : String
deriving DecidableEq

/-- The fixed alert threshold `0.6` used at both call sites. -/
def kill_alert_threshold : ℚ := 3/5

/-- The alert-creation loop of `check_kill_criteria_for_ticker`
(monitor.py): an alert is created for each match with
`match_confidence >= 0.6`. -/
def check_kill_criteria_alerts (ms : List KillCriteriaMatch) :
    List KillCriteriaMatch :=
  ms.filter (fun m => kill_alert_threshold ≤ m.match_confidence)

/-- The alert-creation loop of the background sweep
`check_all_active_theses` (scheduler.py), same `>= 0.6` comparison. -/
def background_sweep_alerts (ms : List KillCriteriaMatch) :
    List KillCriteriaMatch :=
  ms.filter (fun m => kill_alert_threshold ≤ m.match_confidence)

/-! ## Sentiment analyzer (src/stocksense/analyzer.py) -/

/-- Pydantic `HeadlineSentiment`. -/
structure HeadlineSentiment where
  headline : String
  sentiment : String
  confidence : ℚ
  reasoning : String
  key_entities : List String
deriving DecidableEq

/-- Pydantic `KeyTheme`. -/
structure KeyTheme where
  theme : String
  sentiment_direction : String
  headline_count : Nat
  summary : String
deriving DecidableEq

/-- Pydantic `SentimentAnalysisResult`. -/
structure SentimentAnalysisResult where
  overall_sentiment : String
  overall_confidence : ℚ
  confidence_reasoning : String
  bullish_count : Nat
  bearish_count : Nat
  neutral_count : Nat
  insufficient_data_count : Nat
  headline_analyses : List HeadlineSentiment
  key_themes : List KeyTheme
  potential_impact : String
  risks_identified : List String
  information_gaps : List String
deriving DecidableEq

/-- The JSON payload parsed from the completion-service response inside
`analyze_sentiment_structured` (keys may be missing). -/
structure SentimentLLMData where
  overall_sentiment : Option String
  overall_confidence : Option ℚ
  confidence_reasoning : Option String
  bullish_count : Option Nat
  bearish_count : Option Nat
  neutral_count : Option Nat
  insufficient_data_count : Option Nat
  headline_analyses : List HeadlineSentiment
  key_themes : List KeyTheme
  potential_impact : Option String
  risks_identified : Option (List String)
  information_gaps : Option (List String)
deriving DecidableEq

/-- Outcome of the completion-service interaction in
`analyze_sentiment_structured`: configuration failure happens before any
invocation; JSON-decode and other failures happen after. -/
inductive LLMSentimentOutcome where
  | configError (msg : String)
  | jsonDecodeError (msg : String)
  | otherError (msg : String)
  | ok (data : SentimentLLMData)
deriving DecidableEq

/-- The error-shaped result shared by the three `except` branches of
`analyze_sentiment_structured`. -/
def sentimentErrorResult (reason : String) (headlineCount : Nat)
    (gap : String) : SentimentAnalysisResult :=
  { overall_sentiment := "Insufficient Data"
    overall_confidence := 0
    confidence_reasoning := reason
    bullish_count := 0
    bearish_count := 0
    neutral_count := 0
    insufficient_data_count := headlineCount
    headline_analyses := []
    key_themes := []
    potential_impact := "Uncertain"
    risks_identified := []
    information_gaps := [gap] }

/-- `analyze_sentiment_structured`.  The boolean in the result records
whether the completion service was invoked. -/
def analyze_sentiment_structured (headlines : List String)
    (llm : LLMSentimentOutcome) : SentimentAnalysisResult × Bool :=
  if headlines.isEmpty then
    ({ overall_sentiment := "Insufficient Data"
       overall_confidence := 0
       confidence_reasoning := "No headlines were provided for analysis."
       bullish_count := 0
       bearish_count := 0
       neutral_count := 0
       insufficient_data_count := 0
       headline_analyses := []
       key_themes := []
       potential_impact := "Uncertain"
       risks_identified := []
       information_gaps := ["No news data available for analysis"] }, false)
  else
    match llm with
    | .configError msg =>
        (sentimentErrorResult ("Configuration error: " ++ msg)
          headlines.length
          "Analysis could not be completed due to configuration error", false)
    | .jsonDecodeError msg =>
        (sentimentErrorResult
          ("Failed to parse LLM response as structured JSON: " ++ msg)
          headlines.length
          "Analysis could not be completed due to response parsing error", true)
    | .otherError msg =>
        (sentimentErrorResult ("Analysis error: " ++ msg)
          headlines.length
          "Analysis could not be completed due to unexpected error", true)
    | .ok data =>
        ({ overall_sentiment := data.overall_sentiment.getD "Neutral"
           overall_confidence := data.overall_confidence.getD (1/2)
           confidence_reasoning := data.confidence_reasoning.getD ""
           bullish_count := data.bullish_count.getD 0
           bearish_count := data.bearish_count.getD 0
           neutral_count := data.neutral_count.getD 0
           insufficient_data_count := data.insufficient_data_count.getD 0
           headline_analyses := data.headline_analyses
           key_themes := data.key_themes
           potential_impact := data.potential_impact.getD "Uncertain"
           risks_identified := data.risks_identified.getD []
           information_gaps := data.information_gaps.getD [] }, true)

/-! ## ReAct loop (src/stocksense/react_agent.py) -/

/-- One structured OHLCV record as built by `fetch_price_data`. -/
structure PriceRecord where
  Date : String
  Open : Option ℚ
  High : Option ℚ
  Low : Option ℚ
  Close : Option ℚ
  Volume : Option Int
deriving DecidableEq

/-- A tool call requested by the model (only the name drives the loop). -/
structure ToolCall where
  name : String
deriving DecidableEq

/-- One model turn: requested tool calls plus free-text content. -/
structure ModelResponse where
  toolCalls : List ToolCall
  content : String
deriving DecidableEq

/-- Outcomes of the external effects behind each tool, indexed by how many
times that tool has already been actually invoked in this run.  For the two
fetch tools the outcome is the fetched data itself (empty means failure,
matching the tools, which report `success` exactly when data is non-empty);
for the LLM-backed tools it is a success flag plus the produced report. -/
structure ToolEnv where
  news : Nat → List String
  price : Nat → List PriceRecord
  sentiment : Nat → Bool × String
  skeptic : Nat → Bool × String
  save : Nat → Bool

/-- The fields of `AgentState` (TypedDict) that drive the loop and the
claims; the structured sentiment/skeptic detail fields are omitted. -/
structure AgentState where
  ticker : String
  headlines : List String
  price_data : List PriceRecord
  sentiment_report : String
  skeptic_report : String
  summary : String
  tools_used : List String
  iterations : Nat
  max_iterations : Nat
  final_decision : String
  error : Option String
deriving DecidableEq

/-- The comprehensive summary built in `agent_node` when both a sentiment
report and headlines are present. -/
def comprehensive_summary (s : AgentState) (agent_response : String) : String :=
  "Stock Analysis Summary for " ++ s.ticker ++
    ":\n\nMarket Sentiment: Based on analysis of " ++
    toString s.headlines.length ++
    " recent news headlines, the overall market sentiment shows " ++
    (s.sentiment_report.take 200) ++ "...\n\nKey Findings:\n- News Coverage: " ++
    toString s.headlines.length ++
    " articles analyzed from the past 7 days\n- Price Data: " ++
    (if s.price_data.length > 0 then "Available" else "Not available") ++
    " (" ++ toString s.price_data.length ++
    " data points)\n- Agent Reasoning: " ++ agent_response

/-- `agent_node`: enforce the iteration ceiling, then classify the model
turn as CONTINUE (tool calls present) or COMPLETE (free text), building the
final summary in the COMPLETE case. -/
def agent_node (resp : ModelResponse) (s : AgentState) : AgentState :=
  if s.max_iterations ≤ s.iterations then
    { s with final_decision := "MAX_ITERATIONS_REACHED"
             error := some ("Reached maximum iterations (" ++
               toString s.max_iterations ++ ")") }
  else
    let s1 := { s with iterations := s.iterations + 1 }
    if resp.toolCalls ≠ [] then
      { s1 with final_decision := "CONTINUE" }
    else
      let s2 := { s1 with final_decision := "COMPLETE" }
      if s.sentiment_report ≠ "" ∧ s.headlines ≠ [] then
        { s2 with summary := comprehensive_summary s resp.content }
      else
        { s2 with summary :=
            if resp.content ≠ "" then resp.content
            else "Analysis completed for " ++ s.ticker ++
              " but insufficient data collected" }

/-- Loop state plus the trace of tools actually invoked (network effect),
in order.  Cache hits in `custom_tool_node` do not appear in the trace. -/
structure RunState where
  st : AgentState
  invocations : List String
deriving DecidableEq

/-- Processing of one tool call inside `custom_tool_node`: the three cached
branches answer from state without invoking anything; otherwise the tool is
dispatched by name, its invocation recorded, and its successful result
merged into state. -/
def toolStep (env : ToolEnv) (rs : RunState) (toolName : String) : RunState :=
  let s := rs.st
  if toolName = "analyze_sentiment" ∧ s.sentiment_report ≠ "" then
    { rs with st := { s with tools_used := s.tools_used ++ [toolName] } }
  else if toolName = "fetch_news_headlines" ∧ s.headlines ≠ [] then
    { rs with st := { s with tools_used := s.tools_used ++ [toolName] } }
  else if toolName = "fetch_price_data" ∧ s.price_data ≠ [] then
    { rs with st := { s with tools_used := s.tools_used ++ [toolName] } }
  else if toolName = "fetch_news_headlines" then
    let fetched := env.news (rs.invocations.count toolName)
    { st := { s with
        headlines := if fetched ≠ [] then fetched else s.headlines
        tools_used := s.tools_used ++ [toolName] }
      invocations := rs.invocations ++ [toolName] }
  else if toolName = "fetch_price_data" then
    let fetched := env.price (rs.invocations.count toolName)
    { st := { s with
        price_data := if fetched ≠ [] then fetched else s.price_data
        tools_used := s.tools_used ++ [toolName] }
      invocations := rs.invocations ++ [toolName] }
  else if toolName = "analyze_sentiment" then
    let outcome := env.sentiment (rs.invocations.count toolName)
    { st := { s with
        sentiment_report := if outcome.1 then outcome.2 else s.sentiment_report
        tools_used := s.tools_used ++ [toolName] }
      invocations := rs.invocations ++ [toolName] }
  else if toolName = "generate_skeptic_critique" then
    let outcome := env.skeptic (rs.invocations.count toolName)
    { st := { s with
        skeptic_report := if outcome.1 then outcome.2 else s.skeptic_report
        tools_used := s.tools_used ++ [toolName] }
      invocations := rs.invocations ++ [toolName] }
  else if toolName = "save_analysis_results" then
    { st := { s with tools_used := s.tools_used ++ [toolName] }
      invocations := rs.invocations ++ [toolName] }
  else
    { rs with st := { s with tools_used := s.tools_used ++ [toolName] } }

/-- `custom_tool_node`: process the tool calls of the last model turn in
order. -/
def custom_tool_node (env : ToolEnv) (rs : RunState)
    (calls : List ToolCall) : RunState :=
  calls.foldl (fun acc c => toolStep env acc c.name) rs

/-- `should_continue`: route back to the tool node on CONTINUE, end on a
terminal tag, and (defensively) back to tools otherwise. -/
def should_continue (s : AgentState) : String :=
  if s.final_decision = "CONTINUE" then "tools"
  else if s.final_decision = "COMPLETE" ∨
      s.final_decision = "MAX_ITERATIONS_REACHED" then "end"
  else "tools"

/-- The compiled LangGraph cycle agent → (tools → agent)*, with explicit
fuel; `model k` is the model response of the k-th agent activation. -/
def runLoop (env : ToolEnv) (model : Nat → ModelResponse) :
    Nat → Nat → RunState → RunState
  | 0, _, rs => rs
  | fuel + 1, k, rs =>
    let s1 := agent_node (model k) rs.st
    if should_continue s1 = "tools" then
      runLoop env model fuel (k + 1)
        (custom_tool_node env { rs with st := s1 } (model k).toolCalls)
    else
      { rs with st := s1 }

/-- The initial state of `run_react_analysis` (the source fixes
`max_iterations := 10`; it is a parameter here). -/
def initial_state (ticker : String) (maxIter : Nat) : AgentState :=
  { ticker := ticker.toUpper
    headlines := []
    price_data := []
    sentiment_report := ""
    skeptic_report := ""
    summary := ""
    tools_used := []
    iterations := 0
    max_iterations := maxIter
    final_decision := ""
    error := none }

/-- Initial run state: no tool invoked yet. -/
def initRun (ticker : String) (maxIter : Nat) : RunState :=
  { st := initial_state ticker maxIter, invocations := [] }

/-- The fields of the dict returned by `run_react_analysis` that the claims
mention. -/
structure ReactResult where
  ticker : String
  summary : String
  sentiment_report : String
  headlines : List String
  iterations : Nat
  error : Option String
deriving DecidableEq

/-- `run_react_analysis`: run the loop from the initial state and extract
the result dict.  Fuel `maxIter + 1` covers every possible run (see
`react_loop_terminates_bounded`). -/
def run_react_analysis (env : ToolEnv) (model : Nat → ModelResponse)
    (ticker : String) (maxIter : Nat) : ReactResult :=
  let final := runLoop env model (maxIter + 1) 0 (initRun ticker maxIter)
  { ticker := final.st.ticker
    summary := final.st.summary
    sentiment_report := final.st.sentiment_report
    headlines := final.st.headlines
    iterations := final.st.iterations
    error := final.st.error }

/-! ## Streaming generator (src/stocksense/orchestration/streaming.py) -/

/-- A streaming event (`StreamEvent` dataclass); `hasData` records whether
the optional payload was attached (its content is irrelevant to the
claims). -/
structure StreamEvent where
  event_type : String
  tool_name : Option String := none
  progress : ℚ := 0
  message : String := ""
  hasData : Bool := false
deriving DecidableEq

/-- `TOOL_SEQUENCE`, used for progress calculation on the error path. -/
def TOOL_SEQUENCE : List String :=
  ["fetch_news_headlines", "fetch_price_data", "analyze_sentiment",
    "generate_skeptic_critique"]

/-- `calculate_progress`: fraction of the tool sequence already completed,
capped at 1. -/
def calculate_progress (tools_completed : List String) : ℚ :=
  let completed_count :=
    (TOOL_SEQUENCE.filter (fun t => tools_completed.contains t)).length
  min ((completed_count : ℚ) / (TOOL_SEQUENCE.length : ℚ)) 1

/-- Exogenous outcomes of the external calls made by
`run_streaming_analysis` (a failed fetch yields empty data, matching the
tool wrappers). -/
structure StreamInputs where
  ticker : String
  newsHeadlines : List String
  priceData : List PriceRecord
  sentimentSuccess : Bool
  overallSentiment : String
  skepticSuccess : Bool
  skepticSentiment : String

/-- The full event sequence yielded by `run_streaming_analysis` on a run
with no exception.  Progress literals are the source constants; the
sentiment/skeptic stage runs only when headlines were found. -/
def run_streaming_analysis (inp : StreamInputs) : List StreamEvent :=
  let headlines := inp.newsHeadlines
  [{ event_type := "started", progress := 0
     message := "Starting analysis for " ++ inp.ticker },
   { event_type := "tool_started", tool_name := some "fetch_news_headlines"
     progress := 1/20, message := "Fetching news headlines..." },
   { event_type := "tool_completed", tool_name := some "fetch_news_headlines"
     progress := 1/4
     message := "Found " ++ toString headlines.length ++ " headlines"
     hasData := true },
   { event_type := "tool_started", tool_name := some "fetch_price_data"
     progress := 3/10, message := "Fetching price history..." },
   { event_type := "tool_completed", tool_name := some "fetch_price_data"
     progress := 9/20
     message := "Retrieved " ++ toString inp.priceData.length ++ " data points"
     hasData := true }] ++
  (if headlines.isEmpty then [] else
    [{ event_type := "tool_started", tool_name := some "analyze_sentiment"
       progress := 1/2, message := "Analyzing sentiment..." },
     { event_type := "tool_completed", tool_name := some "analyze_sentiment"
       progress := 7/10
       message := "Sentiment: " ++ inp.overallSentiment, hasData := true },
     { event_type := "tool_started"
       tool_name := some "generate_skeptic_critique"
       progress := 3/4, message := "Generating skeptic analysis..." },
     { event_type := "tool_completed"
       tool_name := some "generate_skeptic_critique"
       progress := 9/10
       message := "Skeptic verdict: " ++ inp.skepticSentiment
       hasData := true }]) ++
  [{ event_type := "completed", progress := 1
     message := "Analysis complete for " ++ inp.ticker, hasData := true }]

/-- The raisable external calls of `run_streaming_analysis`; each sits
between two yields, before the corresponding `tools_used.append`. -/
inductive StreamFailPoint where
  | duringNews
  | duringPrice
  | duringSentiment
  | duringSkeptic
deriving DecidableEq

/-- `run_streaming_analysis` when the external call at `fp` raises: the
events already yielded, then the single ERROR event whose progress is
`calculate_progress` of the tools completed so far.  The sentiment and
skeptic calls only execute when headlines were found, so with an empty
headline list those failure points cannot fire and the run completes
normally. -/
def run_streaming_analysis_failing (inp : StreamInputs)
    (fp : StreamFailPoint) (msg : String) : List StreamEvent :=
  let trace := run_streaming_analysis inp
  match fp with
  | .duringNews =>
      trace.take 2 ++
        [{ event_type := "error", message := msg
           progress := calculate_progress [] }]
  | .duringPrice =>
      trace.take 4 ++
        [{ event_type := "error", message := msg
           progress := calculate_progress ["fetch_news_headlines"] }]
  | .duringSentiment =>
      if inp.newsHeadlines.isEmpty then trace
      else
        trace.take 6 ++
          [{ event_type := "error", message := msg
             progress := calculate_progress
               ["fetch_news_headlines", "fetch_price_data"] }]
  | .duringSkeptic =>
      if inp.newsHeadlines.isEmpty then trace
      else
        trace.take 8 ++
          [{ event_type := "error", message := msg
             progress := calculate_progress
               ["fetch_news_headlines", "fetch_price_data",
                 "analyze_sentiment"] }]

/-- Exogenous outcomes of the debate pipeline stages used by
`run_streaming_debate_analysis`. -/
structure DebateStreamInputs where
  ticker : String
  headlines : List String
  bullConfidence : ℚ
  bearConfidence : ℚ
  bearRebuttalCount : Nat
  bullRebuttalCount : Nat
  recommendation : String
  conviction : ℚ

/-- The full event sequence yielded by `run_streaming_debate_analysis` on a
run with no exception. -/
def run_streaming_debate_analysis (inp : DebateStreamInputs) :
    List StreamEvent :=
  [{ event_type := "debate_started", progress := 0
     message := "Starting adversarial debate for " ++ inp.ticker },
   { event_type := "tool_started", tool_name := some "collect_data"
     progress := 1/20, message := "Collecting market data..." },
   { event_type := "tool_completed", tool_name := some "collect_data"
     progress := 3/20
     message := "Collected " ++ toString inp.headlines.length ++ " headlines"
     hasData := true }] ++
  (if inp.headlines.isEmpty then [] else
    [{ event_type := "tool_started", tool_name := some "analyze_sentiment"
       progress := 9/50, message := "Analyzing market sentiment..." },
     { event_type := "tool_completed", tool_name := some "analyze_sentiment"
       progress := 1/4, message := "Sentiment computed" }]) ++
  [{ event_type := "bull_drafting", progress := 3/10
     message := "Bull analyst building growth case..." },
   { event_type := "bear_drafting", progress := 3/10
     message := "Bear analyst identifying risks..." },
   { event_type := "bull_complete", progress := 1/2
     message := "Bull case complete", hasData := true },
   { event_type := "bear_complete", progress := 11/20
     message := "Bear case complete", hasData := true },
   { event_type := "rebuttal_round", progress := 3/5
     message := "Agents cross-examining each other..." },
   { event_type := "progress", progress := 3/4
     message := "Rebuttal round complete", hasData := true },
   { event_type := "synthesis_started", progress := 4/5
     message := "Synthesizer weighing arguments..." },
   { event_type := "debate_completed", progress := 1
     message := "Debate complete: " ++ inp.recommendation, hasData := true }]

/-- The raisable stages of the debate generator. -/
inductive DebateFailPoint where
  | duringDataCollection
  | duringSentiment
  | duringDrafting
  | duringRebuttals
  | duringSynthesis
deriving DecidableEq

/-- Number of events yielded before each raisable debate stage (the
sentiment pair is skipped when there are no headlines). -/
def debateFailPrefixLen (headlinesEmpty : Bool) : DebateFailPoint → Nat
  | .duringDataCollection => 2
  | .duringSentiment => 4
  | .duringDrafting => if headlinesEmpty then 5 else 7
  | .duringRebuttals => if headlinesEmpty then 8 else 10
  | .duringSynthesis => if headlinesEmpty then 10 else 12

/-- `run_streaming_debate_analysis` when the stage at `fp` raises: the
events already yielded, then the single ERROR event whose progress is the
source literal `0.0`.  The sentiment stage is skipped when there are no
headlines, so that failure point cannot fire then. -/
def run_streaming_debate_analysis_failing (inp : DebateStreamInputs)
    (fp : DebateFailPoint) (msg : String) : List StreamEvent :=
  if fp = .duringSentiment ∧ inp.headlines.isEmpty then
    run_streaming_debate_analysis inp
  else
    (run_streaming_debate_analysis inp).take
        (debateFailPrefixLen inp.headlines.isEmpty fp) ++
      [{ event_type := "error", message := msg, progress := 0 }]

/-- Progress values of an event sequence. -/
def progresses (es : List StreamEvent) : List ℚ :=
  es.map (fun e => e.progress)

/-- Event types of an event sequence. -/
def eventTypes (es : List StreamEvent) : List String :=
  es.map (fun e => e.event_type)

/-- A list of rationals is non-decreasing. -/
def nondecreasing : List ℚ → Prop
  | [] => True
  | [_] => True
  | a :: b :: rest => a ≤ b ∧ nondecreasing (b :: rest)

/-- Number of terminal event types (COMPLETED, DEBATE_COMPLETED or ERROR)
in a list of event types. -/
def countTerminal : List String → Nat
  | [] => 0
  | t :: rest =>
    (if t = "completed" ∨ t = "debate_completed" ∨ t = "error" then 1 else 0)
      + countTerminal rest

/-- The last event of a stream, if any. -/
def lastEvent : List StreamEvent → Option StreamEvent
  | [] => none
  | [e] => some e
  | _ :: e :: rest => lastEvent (e :: rest)

/-! ## SSE cache write (src/stocksense/main.py, `event_generator`) -/

/-- Observable actions of `event_generator`: yielding an SSE frame to the
consumer, or calling `save_analysis` (the analysis-cache write). -/
inductive CacheAction where
  | yieldEvent (e : StreamEvent)
  | saveAnalysis
deriving DecidableEq

/-- `event_generator` under consumer-driven execution: the consumer pulls
`pulls` times; each pull resumes the generator, which first performs the
code after the previous yield (the cache write, when the previous event was
COMPLETED and carried data) and then yields the next event.  A consumer
that stops pulling (an abandoned stream) truncates the action trace. -/
def event_generator : List StreamEvent → Nat → List CacheAction
  | _, 0 => []
  | [], _ + 1 => []
  | e :: rest, pulls + 1 =>
    CacheAction.yieldEvent e ::
      (match pulls with
       | 0 => []
       | p + 1 =>
         (if e.event_type = "completed" ∧ e.hasData then
            [CacheAction.saveAnalysis] else []) ++
           event_generator rest (p + 1))

/-- Count of cache writes in an action trace. -/
def saveCount (as : List CacheAction) : Nat :=
  as.countP (fun a => a matches CacheAction.saveAnalysis)

/-- Count of yielded COMPLETED-with-payload events in an action trace. -/
def completedYieldCount (as : List CacheAction) : Nat :=
  as.countP (fun a =>
    match a with
    | CacheAction.yieldEvent e =>
        decide (e.event_type = "completed" ∧ e.hasData = true)
    | CacheAction.saveAnalysis => false)

/-! ## Theorems -/

/-- C1: for claim_confidence and rebuttal_strength in [0,1], the
Synthesizer final credibility equals `claim_confidence * (1 -
rebuttal_strength * 0.5)`, is monotonically non-increasing in the rebuttal
strength for fixed confidence, and collapses to the claim confidence when
the rebuttal strength is zero. -/
theorem credibility_formula_props (c r r2 : ℚ)
    (hc0 : 0 ≤ c) (_hc1 : c ≤ 1) (_hr0 : 0 ≤ r) (hrr : r ≤ r2)
    (_hr1 : r2 ≤ 1) :
    calculate_credibility c r = c * (1 - r * (1/2)) ∧
    calculate_credibility c r2 ≤ calculate_credibility c r ∧
    calculate_credibility c 0 = c := by
  refine ⟨rfl, ?_, by simp [calculate_credibility]⟩
  unfold calculate_credibility
  apply mul_le_mul_of_nonneg_left (by linarith) hc0

/-- C1 witness at claim_confidence 3/4 and rebuttal strengths 1/4 ≤ 1/2. -/
theorem credibility_formula_props_witness :
    calculate_credibility (3/4) (1/2) ≤ calculate_credibility (3/4) (1/4) ∧
    calculate_credibility (3/4) 0 = 3/4 := by
  have h := credibility_formula_props (3/4) (1/4) (1/2) (by norm_num)
    (by norm_num) (by norm_num) (by norm_num) (by norm_num)
  exact ⟨h.2.1, h.2.2⟩

/-- C2: in the kill-criteria monitor (both the on-demand check and the
background sweep) an alert is created for a match exactly when its
match_confidence is at least 0.6; a match at 0.59 produces no alert, one at
0.60 does. -/
theorem kill_alert_threshold_iff :
    (∀ (m : KillCriteriaMatch) (ms : List KillCriteriaMatch),
      (m ∈ check_kill_criteria_alerts ms ↔
        m ∈ ms ∧ kill_alert_threshold ≤ m.match_confidence) ∧
      (m ∈ background_sweep_alerts ms ↔
        m ∈ ms ∧ kill_alert_threshold ≤ m.match_confidence)) ∧
    check_kill_criteria_alerts
      [{ criteria := "c", signal := "s", match_confidence := 59/100,
         explanation := "e" }] = [] ∧
    check_kill_criteria_alerts
      [{ criteria := "c", signal := "s", match_confidence := 3/5,
         explanation := "e" }] =
      [{ criteria := "c", signal := "s", match_confidence := 3/5,
         explanation := "e" }] ∧
    background_sweep_alerts
      [{ criteria := "c", signal := "s", match_confidence := 59/100,
         explanation := "e" }] = [] ∧
    background_sweep_alerts
      [{ criteria := "c", signal := "s", match_confidence := 3/5,
         explanation := "e" }] =
      [{ criteria := "c", signal := "s", match_confidence := 3/5,
         explanation := "e" }] := by
  refine ⟨fun m ms => ⟨?_, ?_⟩, ?_, ?_, ?_, ?_⟩ <;>
    norm_num [check_kill_criteria_alerts, background_sweep_alerts,
      kill_alert_threshold, List.mem_filter, List.filter_cons]

/-- C3: with an empty headline list, structured sentiment analysis returns
overall_sentiment "Insufficient Data" with overall_confidence 0, and the
completion service is not invoked, whatever its hypothetical outcome. -/
theorem empty_headlines_insufficient_data (llm : LLMSentimentOutcome) :
    (analyze_sentiment_structured [] llm).1.overall_sentiment =
      "Insufficient Data" ∧
    (analyze_sentiment_structured [] llm).1.overall_confidence = 0 ∧
    (analyze_sentiment_structured [] llm).2 = false :=
  ⟨rfl, rfl, rfl⟩

/-- Concrete synthesis output used to refute C9: the completion service
answers with three probabilities of 0.9 each, which `synthesize` passes
through unvalidated. -/
def overweightSynthesisOutput : SynthesisOutput :=
  { bull_probability := some (9/10)
    base_probability := some (9/10)
    bear_probability := some (9/10)
    recommendation := some "Buy"
    conviction := some (9/10)
    decisive_factors := some []
    unresolved_questions := some []
    reasoning := some "overweight" }

/-- Concrete empty bull case used to refute C9. -/
def overweightBullCase : CaseD :=
  { thesis := "growth", key_claims := [], confidence := 1/2 }

/-- Concrete empty bear case used to refute C9. -/
def overweightBearCase : CaseD :=
  { thesis := "risk", key_claims := [], confidence := 1/2 }

/-- C9 counterexample: a completed debate run whose scenario probabilities
sum to 2.7, far outside 0.05 of 1.0 — `synthesize` imposes no constraint on
the probabilities the completion service returns. -/
theorem verdict_probability_sum_cex :
    ¬(|(synthesize "AAPL" overweightBullCase overweightBearCase [] [] true
          overweightSynthesisOutput).bull_probability +
        (synthesize "AAPL" overweightBullCase overweightBearCase [] [] true
          overweightSynthesisOutput).base_probability +
        (synthesize "AAPL" overweightBullCase overweightBearCase [] [] true
          overweightSynthesisOutput).bear_probability - 1| ≤ 1/20) := by
  have hsum : (synthesize "AAPL" overweightBullCase overweightBearCase [] []
        true overweightSynthesisOutput).bull_probability +
      (synthesize "AAPL" overweightBullCase overweightBearCase [] [] true
        overweightSynthesisOutput).base_probability +
      (synthesize "AAPL" overweightBullCase overweightBearCase [] [] true
        overweightSynthesisOutput).bear_probability = 27/10 := by
    norm_num [synthesize, overweightBullCase, overweightBearCase,
      overweightSynthesisOutput]
  rw [hsum, abs_le]
  push_neg
  intro h
  norm_num at h ⊢

/-- C9 amended: the three scenario probabilities sum to exactly 1.0 in
every code path where the code itself chooses them — the per-key defaults
used when the parsed synthesis output lacks the keys, and the
LLM-unavailable fallback verdict; probabilities supplied by the completion
service are passed through unvalidated. -/
theorem verdict_probability_sum_defaults (ticker : String)
    (bull_case bear_case : CaseD) (br1 br2 : List RebuttalD)
    (rec : Option String) (conv : Option ℚ) (df uq : Option (List String))
    (reas : Option String) (syn : SynthesisOutput) :
    ((synthesize ticker bull_case bear_case br1 br2 true
        { bull_probability := none, base_probability := none
          bear_probability := none, recommendation := rec, conviction := conv
          decisive_factors := df, unresolved_questions := uq
          reasoning := reas }).bull_probability +
      (synthesize ticker bull_case bear_case br1 br2 true
        { bull_probability := none, base_probability := none
          bear_probability := none, recommendation := rec, conviction := conv
          decisive_factors := df, unresolved_questions := uq
          reasoning := reas }).base_probability +
      (synthesize ticker bull_case bear_case br1 br2 true
        { bull_probability := none, base_probability := none
          bear_probability := none, recommendation := rec, conviction := conv
          decisive_factors := df, unresolved_questions := uq
          reasoning := reas }).bear_probability = 1) ∧
    ((synthesize ticker bull_case bear_case br1 br2 false syn).bull_probability +
      (synthesize ticker bull_case bear_case br1 br2 false syn).base_probability +
      (synthesize ticker bull_case bear_case br1 br2 false syn).bear_probability
        = 1) := by
  constructor <;> simp [synthesize, fallback_synthesis] <;> norm_num

/-- C10: a side with zero evidence grades gets argument strength exactly
0.5 (in particular when its case has no key_claims, and in the
LLM-unavailable fallback verdict); a side with grades gets the arithmetic
mean of its final_credibility values. -/
theorem argument_strength_zero_and_mean (ticker : String)
    (bull_case bear_case : CaseD) (br1 br2 : List RebuttalD)
    (grades : List EvidenceGrade) (source : String) :
    (bull_case.key_claims = [] →
      calculate_argument_strength
        (grade_evidence bull_case bear_case br1 br2) "bull" = 1/2) ∧
    (bear_case.key_claims = [] →
      calculate_argument_strength
        (grade_evidence bull_case bear_case br1 br2) "bear" = 1/2) ∧
    ((grades.filter (fun g => g.source_agent == source)) ≠ [] →
      calculate_argument_strength grades source =
        ((grades.filter (fun g => g.source_agent == source)).map
            (fun g => g.final_credibility)).sum /
          ((grades.filter (fun g => g.source_agent == source)).length : ℚ)) ∧
    (fallback_synthesis ticker bull_case bear_case).bull_argument_strength
      = 1/2 ∧
    (fallback_synthesis ticker bull_case bear_case).bear_argument_strength
      = 1/2 := by
  refine ⟨?_, ?_, ?_, rfl, rfl⟩
  · intro h
    have hnil : ((bear_case.key_claims.map (gradeClaim "bear" br1)).filter
        (fun g => g.source_agent == "bull")) = [] := by
      rw [List.filter_eq_nil_iff]
      intro a ha
      rcases List.mem_map.mp ha with ⟨c, _, rfl⟩
      simp [gradeClaim]
    simp [grade_evidence, h, calculate_argument_strength, hnil]
  · intro h
    have hnil : ((bull_case.key_claims.map (gradeClaim "bull" br2)).filter
        (fun g => g.source_agent == "bear")) = [] := by
      rw [List.filter_eq_nil_iff]
      intro a ha
      rcases List.mem_map.mp ha with ⟨c, _, rfl⟩
      simp [gradeClaim]
    simp [grade_evidence, h, calculate_argument_strength, hnil]
  · intro h
    unfold calculate_argument_strength
    simp only [List.isEmpty_iff]
    rw [if_neg h]

/-- C10 witness: a bull case with no key_claims yields bull strength 0.5,
and a single bull grade of credibility 3/4 yields bull strength 3/4. -/
theorem argument_strength_zero_and_mean_witness :
    calculate_argument_strength
      (grade_evidence { thesis := "t", key_claims := [], confidence := 1/2 }
        { thesis := "u", key_claims := [{ statement := "c", confidence := 3/4 }],
          confidence := 1/2 } [] []) "bull" = 1/2 ∧
    calculate_argument_strength
      [{ claim := "c", source_agent := "bull", has_counter_evidence := false,
         data_support_score := 3/4, rebuttal_strength := 0,
         final_credibility := 3/4 }] "bull" =
      ([(3/4 : ℚ)].sum) / ((1 : Nat) : ℚ) := by
  constructor
  · exact (argument_strength_zero_and_mean "AAPL"
      { thesis := "t", key_claims := [], confidence := 1/2 }
      { thesis := "u", key_claims := [{ statement := "c", confidence := 3/4 }],
        confidence := 1/2 } [] [] [] "bull").1 rfl
  · have h := (argument_strength_zero_and_mean "AAPL"
      { thesis := "t", key_claims := [], confidence := 1/2 }
      { thesis := "u", key_claims := [], confidence := 1/2 } [] []
      [{ claim := "c", source_agent := "bull", has_counter_evidence := false,
         data_support_score := 3/4, rebuttal_strength := 0,
         final_credibility := 3/4 }] "bull").2.2.1 (by decide)
    simpa using h

/-! ### ReAct loop lemmas -/

/-- A string append with a non-empty left part is non-empty. -/
lemma append_ne_empty_left (a b : String) (h : a ≠ "") : a ++ b ≠ "" := by
  intro hab
  apply h
  have hd : a.data ++ b.data = [] := by
    have hc := congrArg String.data hab
    simpa [String.data_append] using hc
  have hempty : a.data = [] := (List.append_eq_nil.mp hd).1
  exact String.ext (by simpa using hempty)

/-- `agent_node` leaves the ceiling untouched. -/
lemma agent_node_max_iterations (resp : ModelResponse) (s : AgentState) :
    (agent_node resp s).max_iterations = s.max_iterations := by
  unfold agent_node
  split_ifs <;> rfl

/-- `agent_node` tags one of the three decisions. -/
lemma agent_node_decision (resp : ModelResponse) (s : AgentState) :
    (agent_node resp s).final_decision = "CONTINUE" ∨
    (agent_node resp s).final_decision = "COMPLETE" ∨
    (agent_node resp s).final_decision = "MAX_ITERATIONS_REACHED" := by
  unfold agent_node
  split_ifs <;> simp

/-- At the ceiling, `agent_node` tags MAX_ITERATIONS_REACHED, sets the
error and leaves the iteration counter unchanged. -/
lemma agent_node_ceiling (resp : ModelResponse) (s : AgentState)
    (h : s.max_iterations ≤ s.iterations) :
    (agent_node resp s).final_decision = "MAX_ITERATIONS_REACHED" ∧
    (agent_node resp s).iterations = s.iterations ∧
    (agent_node resp s).error ≠ none := by
  unfold agent_node
  rw [if_pos h]
  exact ⟨rfl, rfl, by simp⟩

/-- Below the ceiling, `agent_node` increments the iteration counter. -/
lemma agent_node_below_iterations (resp : ModelResponse) (s : AgentState)
    (h : ¬ s.max_iterations ≤ s.iterations) :
    (agent_node resp s).iterations = s.iterations + 1 := by
  unfold agent_node
  rw [if_neg h]
  split_ifs <;> rfl

/-- Below the ceiling, the decision is CONTINUE exactly when the model
requested tool calls. -/
lemma agent_node_below_decision (resp : ModelResponse) (s : AgentState)
    (h : ¬ s.max_iterations ≤ s.iterations) :
    (agent_node resp s).final_decision =
      (if resp.toolCalls ≠ [] then "CONTINUE" else "COMPLETE") := by
  unfold agent_node
  rw [if_neg h]
  split_ifs <;> rfl

/-- A CONTINUE decision forces the under-ceiling branch. -/
lemma agent_node_continue_lt (resp : ModelResponse) (s : AgentState)
    (h : (agent_node resp s).final_decision = "CONTINUE") :
    s.iterations < s.max_iterations ∧
    (agent_node resp s).iterations = s.iterations + 1 := by
  by_cases hc : s.max_iterations ≤ s.iterations
  · exact absurd h (by simp [(agent_node_ceiling resp s hc).1])
  · exact ⟨by omega, agent_node_below_iterations resp s hc⟩

/-- A COMPLETE decision carries a non-empty summary. -/
lemma agent_node_complete_summary (resp : ModelResponse) (s : AgentState)
    (h : (agent_node resp s).final_decision = "COMPLETE") :
    (agent_node resp s).summary ≠ "" := by
  unfold agent_node at h ⊢
  split_ifs at h ⊢ with h1 h2 h3 h4
  · simp at h
  · simp at h
  · show comprehensive_summary s resp.content ≠ ""
    unfold comprehensive_summary
    repeat' apply append_ne_empty_left
    decide
  · show resp.content ≠ ""
    exact h4
  · show ("Analysis completed for " ++ s.ticker ++
      " but insufficient data collected") ≠ ""
    apply append_ne_empty_left
    apply append_ne_empty_left
    decide

/-- After `agent_node`, the router goes to "tools" exactly on CONTINUE. -/
lemma should_continue_agent_node (resp : ModelResponse) (s : AgentState) :
    (should_continue (agent_node resp s) = "tools" ↔
      (agent_node resp s).final_decision = "CONTINUE") := by
  rcases agent_node_decision resp s with h | h | h <;>
    simp [should_continue, h]

set_option maxRecDepth 8000 in
/-- One tool-call step touches neither the loop counters nor the terminal
fields. -/
lemma toolStep_preserves (env : ToolEnv) (rs : RunState) (toolName : String) :
    (toolStep env rs toolName).st.iterations = rs.st.iterations ∧
    (toolStep env rs toolName).st.max_iterations = rs.st.max_iterations ∧
    (toolStep env rs toolName).st.final_decision = rs.st.final_decision ∧
    (toolStep env rs toolName).st.summary = rs.st.summary ∧
    (toolStep env rs toolName).st.error = rs.st.error := by
  unfold toolStep
  dsimp only
  split_ifs <;> exact ⟨rfl, rfl, rfl, rfl, rfl⟩

/-- `custom_tool_node` touches neither the loop counters nor the terminal
fields. -/
lemma custom_tool_node_preserves (env : ToolEnv) :
    ∀ (calls : List ToolCall) (rs : RunState),
      (custom_tool_node env rs calls).st.iterations = rs.st.iterations ∧
      (custom_tool_node env rs calls).st.max_iterations =
        rs.st.max_iterations ∧
      (custom_tool_node env rs calls).st.final_decision =
        rs.st.final_decision ∧
      (custom_tool_node env rs calls).st.summary = rs.st.summary := by
  intro calls
  induction calls with
  | nil => intro rs; exact ⟨rfl, rfl, rfl, rfl⟩
  | cons c cs ih =>
    intro rs
    have hstep := toolStep_preserves env rs c.name
    have htail := ih (toolStep env rs c.name)
    have he : custom_tool_node env rs (c :: cs) =
        custom_tool_node env (toolStep env rs c.name) cs := rfl
    rw [he]
    exact ⟨htail.1.trans hstep.1, htail.2.1.trans hstep.2.1,
      htail.2.2.1.trans hstep.2.2.1, htail.2.2.2.trans hstep.2.2.2.1⟩

/-- Unfolding of `runLoop` when the router stops. -/
lemma runLoop_step_stop (env : ToolEnv) (model : Nat → ModelResponse)
    (f k : Nat) (rs : RunState)
    (h : ¬ should_continue (agent_node (model k) rs.st) = "tools") :
    runLoop env model (f + 1) k rs = { rs with st := agent_node (model k) rs.st } := by
  simp [runLoop, h]

/-- Unfolding of `runLoop` when the router continues. -/
lemma runLoop_step_go (env : ToolEnv) (model : Nat → ModelResponse)
    (f k : Nat) (rs : RunState)
    (h : should_continue (agent_node (model k) rs.st) = "tools") :
    runLoop env model (f + 1) k rs =
      runLoop env model f (k + 1)
        (custom_tool_node env { rs with st := agent_node (model k) rs.st }
          (model k).toolCalls) := by
  simp [runLoop, h]

/-- With fuel at least `max_iterations + 1 - iterations` (and at least 1)
the loop reaches a terminal decision and extra fuel changes nothing. -/
lemma runLoop_terminal_stable (env : ToolEnv) (model : Nat → ModelResponse) :
    ∀ fuel k rs, rs.st.max_iterations + 1 ≤ fuel + rs.st.iterations →
      1 ≤ fuel →
      ((runLoop env model fuel k rs).st.final_decision = "COMPLETE" ∨
        (runLoop env model fuel k rs).st.final_decision =
          "MAX_ITERATIONS_REACHED") ∧
      ∀ extra, runLoop env model (fuel + extra) k rs =
        runLoop env model fuel k rs := by
  intro fuel
  induction fuel with
  | zero => intro k rs _ h1; omega
  | succ f ih =>
    intro k rs hle _
    by_cases hgo : should_continue (agent_node (model k) rs.st) = "tools"
    · have hcont := (should_continue_agent_node (model k) rs.st).mp hgo
      have hlt := agent_node_continue_lt (model k) rs.st hcont
      set rs2 := custom_tool_node env { rs with st := agent_node (model k) rs.st }
        (model k).toolCalls with hrs2
      have hpres := custom_tool_node_preserves env (model k).toolCalls
        { rs with st := agent_node (model k) rs.st }
      have hit2 : rs2.st.iterations = rs.st.iterations + 1 := by
        rw [← hrs2] at hpres
        rw [hpres.1, hlt.2]
      have hmax2 : rs2.st.max_iterations = rs.st.max_iterations := by
        rw [← hrs2] at hpres
        rw [hpres.2.1, agent_node_max_iterations]
      have hf1 : 1 ≤ f := by omega
      have hle2 : rs2.st.max_iterations + 1 ≤ f + rs2.st.iterations := by
        rw [hit2, hmax2]; omega
      have hres := ih (k + 1) rs2 hle2 hf1
      constructor
      · rw [runLoop_step_go env model f k rs hgo]
        exact hres.1
      · intro extra
        have hsucc : f + 1 + extra = (f + extra) + 1 := by omega
        rw [hsucc, runLoop_step_go env model (f + extra) k rs hgo,
          runLoop_step_go env model f k rs hgo]
        exact hres.2 extra
    · constructor
      · rw [runLoop_step_stop env model f k rs hgo]
        rcases agent_node_decision (model k) rs.st with h | h | h
        · exact absurd ((should_continue_agent_node (model k) rs.st).mpr h)
            hgo
        · exact Or.inl h
        · exact Or.inr h
      · intro extra
        have hsucc : f + 1 + extra = (f + extra) + 1 := by omega
        rw [hsucc, runLoop_step_stop env model (f + extra) k rs hgo,
          runLoop_step_stop env model f k rs hgo]

/-- The iteration counter never exceeds the ceiling. -/
lemma runLoop_iterations_le (env : ToolEnv) (model : Nat → ModelResponse) :
    ∀ fuel k rs, rs.st.iterations ≤ rs.st.max_iterations →
      (runLoop env model fuel k rs).st.iterations ≤ rs.st.max_iterations := by
  intro fuel
  induction fuel with
  | zero => intro k rs h; exact h
  | succ f ih =>
    intro k rs h
    by_cases hgo : should_continue (agent_node (model k) rs.st) = "tools"
    · have hcont := (should_continue_agent_node (model k) rs.st).mp hgo
      have hlt := agent_node_continue_lt (model k) rs.st hcont
      set rs2 := custom_tool_node env { rs with st := agent_node (model k) rs.st }
        (model k).toolCalls with hrs2
      have hpres := custom_tool_node_preserves env (model k).toolCalls
        { rs with st := agent_node (model k) rs.st }
      rw [← hrs2] at hpres
      have hit2 : rs2.st.iterations = rs.st.iterations + 1 := by
        rw [hpres.1, hlt.2]
      have hmax2 : rs2.st.max_iterations = rs.st.max_iterations := by
        rw [hpres.2.1, agent_node_max_iterations]
      have hres := ih (k + 1) rs2 (by omega)
      rw [runLoop_step_go env model f k rs hgo]
      exact le_of_le_of_eq hres hmax2
    · rw [runLoop_step_stop env model f k rs hgo]
      by_cases hc : rs.st.max_iterations ≤ rs.st.iterations
      · have := (agent_node_ceiling (model k) rs.st hc).2.1
        simp only [this]
        omega
      · have := agent_node_below_iterations (model k) rs.st hc
        simp only [this]
        omega

/-- A COMPLETE final decision comes with a non-empty summary (invariant
threaded through the loop). -/
lemma runLoop_complete_summary (env : ToolEnv) (model : Nat → ModelResponse) :
    ∀ fuel k rs,
      (rs.st.final_decision = "COMPLETE" → rs.st.summary ≠ "") →
      ((runLoop env model fuel k rs).st.final_decision = "COMPLETE" →
        (runLoop env model fuel k rs).st.summary ≠ "") := by
  intro fuel
  induction fuel with
  | zero => intro k rs h; exact h
  | succ f ih =>
    intro k rs _
    by_cases hgo : should_continue (agent_node (model k) rs.st) = "tools"
    · have hcont := (should_continue_agent_node (model k) rs.st).mp hgo
      set rs2 := custom_tool_node env { rs with st := agent_node (model k) rs.st }
        (model k).toolCalls with hrs2
      have hpres := custom_tool_node_preserves env (model k).toolCalls
        { rs with st := agent_node (model k) rs.st }
      rw [← hrs2] at hpres
      have hdec2 : rs2.st.final_decision = "CONTINUE" := by
        rw [hpres.2.2.1]; exact hcont
      rw [runLoop_step_go env model f k rs hgo]
      exact ih (k + 1) rs2 (by rw [hdec2]; intro hcc; exact absurd hcc (by decide))
    · rw [runLoop_step_stop env model f k rs hgo]
      exact agent_node_complete_summary (model k) rs.st

/-- If the model requests tool calls on every turn, the loop ends at the
ceiling with MAX_ITERATIONS_REACHED and a set error field. -/
lemma runLoop_all_toolcalls_max (env : ToolEnv) (model : Nat → ModelResponse)
    (hm : ∀ j, (model j).toolCalls ≠ []) :
    ∀ fuel k rs, rs.st.max_iterations + 1 ≤ fuel + rs.st.iterations →
      1 ≤ fuel →
      (runLoop env model fuel k rs).st.final_decision =
        "MAX_ITERATIONS_REACHED" ∧
      (runLoop env model fuel k rs).st.error ≠ none := by
  intro fuel
  induction fuel with
  | zero => intro k rs _ h1; omega
  | succ f ih =>
    intro k rs hle _
    by_cases hgo : should_continue (agent_node (model k) rs.st) = "tools"
    · have hcont := (should_continue_agent_node (model k) rs.st).mp hgo
      have hlt := agent_node_continue_lt (model k) rs.st hcont
      set rs2 := custom_tool_node env { rs with st := agent_node (model k) rs.st }
        (model k).toolCalls with hrs2
      have hpres := custom_tool_node_preserves env (model k).toolCalls
        { rs with st := agent_node (model k) rs.st }
      rw [← hrs2] at hpres
      have hit2 : rs2.st.iterations = rs.st.iterations + 1 := by
        rw [hpres.1, hlt.2]
      have hmax2 : rs2.st.max_iterations = rs.st.max_iterations := by
        rw [hpres.2.1, agent_node_max_iterations]
      rw [runLoop_step_go env model f k rs hgo]
      exact ih (k + 1) rs2 (by omega) (by omega)
    · rw [runLoop_step_stop env model f k rs hgo]
      by_cases hc : rs.st.max_iterations ≤ rs.st.iterations
      · have hmax := agent_node_ceiling (model k) rs.st hc
        exact ⟨hmax.1, hmax.2.2⟩
      · exfalso
        apply hgo
        apply (should_continue_agent_node (model k) rs.st).mpr
        rw [agent_node_below_decision (model k) rs.st hc]
        simp [hm k]

/-! ### C4, C5, C6 theorems -/

/-- C4: for every ticker and ceiling N, the ReAct loop with fuel N+1 is
already stable (extra fuel changes nothing, i.e. the run terminates), ends
in a terminal decision, records at most N+1 iterations, returns a non-empty
summary whenever it completes, and — when the model never stops calling
tools — ends tagged MAX_ITERATIONS_REACHED with the error field set instead
of failing. -/
theorem react_loop_terminates_bounded (env : ToolEnv)
    (model : Nat → ModelResponse) (ticker : String) (N : Nat) :
    (∀ extra, runLoop env model (N + 1 + extra) 0 (initRun ticker N) =
      runLoop env model (N + 1) 0 (initRun ticker N)) ∧
    ((runLoop env model (N + 1) 0 (initRun ticker N)).st.final_decision =
        "COMPLETE" ∨
      (runLoop env model (N + 1) 0 (initRun ticker N)).st.final_decision =
        "MAX_ITERATIONS_REACHED") ∧
    (run_react_analysis env model ticker N).iterations ≤ N + 1 ∧
    ((runLoop env model (N + 1) 0 (initRun ticker N)).st.final_decision =
        "COMPLETE" →
      (run_react_analysis env model ticker N).summary ≠ "") ∧
    ((∀ j, (model j).toolCalls ≠ []) →
      (runLoop env model (N + 1) 0 (initRun ticker N)).st.final_decision =
        "MAX_ITERATIONS_REACHED" ∧
      (run_react_analysis env model ticker N).error ≠ none) := by
  have hinit_max : (initRun ticker N).st.max_iterations = N := rfl
  have hinit_it : (initRun ticker N).st.iterations = 0 := rfl
  have hstable := runLoop_terminal_stable env model (N + 1) 0
    (initRun ticker N) (by omega) (by omega)
  refine ⟨hstable.2, hstable.1, ?_, ?_, ?_⟩
  · have := runLoop_iterations_le env model (N + 1) 0 (initRun ticker N)
      (by omega)
    simp only [run_react_analysis]
    omega
  · intro hc
    have := runLoop_complete_summary env model (N + 1) 0 (initRun ticker N)
      (by intro habs; simp [initRun, initial_state] at habs)
    exact this hc
  · intro hm
    have := runLoop_all_toolcalls_max env model hm (N + 1) 0
      (initRun ticker N) (by omega) (by omega)
    exact ⟨this.1, this.2⟩

/-- C4 witness: with a model that always requests a price fetch and a
ceiling of 3, the run ends tagged MAX_ITERATIONS_REACHED with an error set,
within 4 iterations. -/
theorem react_loop_terminates_bounded_witness :
    ((runLoop
        { news := fun _ => [], price := fun _ => [],
          sentiment := fun _ => (false, ""),
          skeptic := fun _ => (false, ""), save := fun _ => false }
        (fun _ => { toolCalls := [{ name := "fetch_price_data" }], content := "" })
        (3 + 1) 0 (initRun "AAPL" 3)).st.final_decision =
      "MAX_ITERATIONS_REACHED") ∧
    (run_react_analysis
        { news := fun _ => [], price := fun _ => [],
          sentiment := fun _ => (false, ""),
          skeptic := fun _ => (false, ""), save := fun _ => false }
        (fun _ => { toolCalls := [{ name := "fetch_price_data" }], content := "" })
        "AAPL" 3).iterations ≤ 3 + 1 := by
  have h := react_loop_terminates_bounded
    { news := fun _ => [], price := fun _ => [],
      sentiment := fun _ => (false, ""),
      skeptic := fun _ => (false, ""), save := fun _ => false }
    (fun _ => { toolCalls := [{ name := "fetch_price_data" }], content := "" })
    "AAPL" 3
  exact ⟨(h.2.2.2.2 (fun j => by simp)).1, h.2.2.1⟩

/-- Tool environment in which every external fetch fails or returns
nothing (used by the C5 and C6 counterexamples). -/
def silentEnv : ToolEnv :=
  { news := fun _ => []
    price := fun _ => []
    sentiment := fun _ => (false, "")
    skeptic := fun _ => (false, "")
    save := fun _ => false }

/-- A model that immediately produces a free-text answer with zero tool
calls (used by the C5 counterexample). -/
def finalizeEarlyModel : Nat → ModelResponse :=
  fun _ => { toolCalls := [], content := "Final answer without any data." }

/-- C5 counterexample: the model finalizes on its very first turn with no
headlines, no price data, no sentiment report and no skeptic critique in
state, and the loop still transitions to TERMINAL with tag COMPLETE after a
single iteration — no corrective instruction, no forced extra iteration. -/
theorem complete_without_data_cex :
    (runLoop silentEnv finalizeEarlyModel 11 0 (initRun "AAPL" 10)).st.final_decision
      = "COMPLETE" ∧
    (runLoop silentEnv finalizeEarlyModel 11 0 (initRun "AAPL" 10)).st.headlines
      = [] ∧
    (runLoop silentEnv finalizeEarlyModel 11 0 (initRun "AAPL" 10)).st.price_data
      = [] ∧
    (runLoop silentEnv finalizeEarlyModel 11 0 (initRun "AAPL" 10)).st.sentiment_report
      = "" ∧
    (runLoop silentEnv finalizeEarlyModel 11 0 (initRun "AAPL" 10)).st.skeptic_report
      = "" ∧
    (runLoop silentEnv finalizeEarlyModel 11 0 (initRun "AAPL" 10)).st.iterations
      = 1 :=
  ⟨rfl, rfl, rfl, rfl, rfl, rfl⟩

/-- C5 amended: below the ceiling, a model turn with zero tool calls makes
`agent_node` tag the run COMPLETE and the router end the loop, regardless
of which data categories are present in state; missing data only selects
the fallback summary. -/
theorem complete_on_no_toolcalls (resp : ModelResponse) (s : AgentState)
    (hit : s.iterations < s.max_iterations) (hcalls : resp.toolCalls = []) :
    (agent_node resp s).final_decision = "COMPLETE" ∧
    should_continue (agent_node resp s) = "end" ∧
    (agent_node resp s).iterations = s.iterations + 1 := by
  have hlt : ¬ s.max_iterations ≤ s.iterations := by omega
  have hdec : (agent_node resp s).final_decision = "COMPLETE" := by
    rw [agent_node_below_decision resp s hlt]
    simp [hcalls]
  refine ⟨hdec, ?_, agent_node_below_iterations resp s hlt⟩
  simp [should_continue, hdec]

/-- C5 amended witness: a first-turn free-text answer on an empty state is
accepted as COMPLETE. -/
theorem complete_on_no_toolcalls_witness :
    (agent_node { toolCalls := [], content := "done" }
      (initial_state "AAPL" 10)).final_decision = "COMPLETE" ∧
    should_continue (agent_node { toolCalls := [], content := "done" }
      (initial_state "AAPL" 10)) = "end" :=
  have h := complete_on_no_toolcalls { toolCalls := [], content := "done" }
    (initial_state "AAPL" 10) (by decide) rfl
  ⟨h.1, h.2.1⟩

/-- A model that requests the news fetch on its first two turns and then
finalizes (used by the C6 counterexample). -/
def repeatNewsModel : Nat → ModelResponse :=
  fun k =>
    if k ≤ 1 then { toolCalls := [{ name := "fetch_news_headlines" }], content := "" }
    else { toolCalls := [], content := "done" }

/-- C6 counterexample: when the first news fetch produces no headlines, the
cache guard (which checks for non-empty data, not for a previous attempt)
does not fire, and `fetch_news_headlines` is invoked with network effect
twice within a single run for one ticker. -/
theorem news_tool_invoked_twice_cex :
    (runLoop silentEnv repeatNewsModel 11 0 (initRun "AAPL" 10)).invocations =
      ["fetch_news_headlines", "fetch_news_headlines"] :=
  rfl

set_option maxHeartbeats 1600000 in
set_option maxRecDepth 8000 in
/-- C6 amended: whenever the data of a data-fetch tool is already present
in state, `custom_tool_node` answers the request from cached state — it
only appends the tool name to `tools_used` and records no new invocation of
that tool, whatever tool was requested. -/
theorem tool_dedup_cache_hit (env : ToolEnv) (rs : RunState)
    (toolName : String) :
    (rs.st.headlines ≠ [] →
      toolStep env rs "fetch_news_headlines" =
        { rs with st := { rs.st with
            tools_used := rs.st.tools_used ++ ["fetch_news_headlines"] } } ∧
      (toolStep env rs toolName).invocations.count "fetch_news_headlines" =
        rs.invocations.count "fetch_news_headlines") ∧
    (rs.st.price_data ≠ [] →
      toolStep env rs "fetch_price_data" =
        { rs with st := { rs.st with
            tools_used := rs.st.tools_used ++ ["fetch_price_data"] } } ∧
      (toolStep env rs toolName).invocations.count "fetch_price_data" =
        rs.invocations.count "fetch_price_data") ∧
    (rs.st.sentiment_report ≠ "" →
      toolStep env rs "analyze_sentiment" =
        { rs with st := { rs.st with
            tools_used := rs.st.tools_used ++ ["analyze_sentiment"] } } ∧
      (toolStep env rs toolName).invocations.count "analyze_sentiment" =
        rs.invocations.count "analyze_sentiment") := by
  refine ⟨fun h => ⟨?_, ?_⟩, fun h => ⟨?_, ?_⟩, fun h => ⟨?_, ?_⟩⟩
  · simp [toolStep, h]
  · unfold toolStep
    dsimp only
    split_ifs with h1 h2 h3 h4 h5 h6 h7 h8 <;>
      simp_all [List.count_append]
  · simp [toolStep, h]
  · unfold toolStep
    dsimp only
    split_ifs with h1 h2 h3 h4 h5 h6 h7 h8 <;>
      simp_all [List.count_append]
  · simp [toolStep, h]
  · unfold toolStep
    dsimp only
    split_ifs with h1 h2 h3 h4 h5 h6 h7 h8 <;>
      simp_all [List.count_append]

/-- C6 amended witness: with headlines already in state, a repeated news
request is served from cache and records no invocation. -/
theorem tool_dedup_cache_hit_witness :
    toolStep silentEnv
        { st := { initial_state "AAPL" 10 with headlines := ["h1"] },
          invocations := [] } "fetch_news_headlines" =
      { st :=
          { initial_state "AAPL" 10 with
            headlines := ["h1"],
            tools_used := [] ++ ["fetch_news_headlines"] },
        invocations := [] } := by
  have h := (tool_dedup_cache_hit silentEnv
    { st := { initial_state "AAPL" 10 with headlines := ["h1"] },
      invocations := [] } "fetch_news_headlines").1 (by simp)
  exact h.1

/-! ### C7 and C8 theorems -/

/-- Concrete inputs for the C7 counterexample: a run in which the news
fetch raises. -/
def emptyNewsStreamInputs : StreamInputs :=
  { ticker := "ZZZZ"
    newsHeadlines := []
    priceData := []
    sentimentSuccess := false
    overallSentiment := ""
    skepticSuccess := false
    skepticSentiment := "" }

/-- C7 counterexample: when the news fetch raises, the stream yields
progress values 0, 0.05, 0 — the terminal ERROR event carries
`calculate_progress` of zero completed tools, so the progress sequence
decreases and does not end at 1.0. -/
theorem stream_error_progress_cex :
    ¬ nondecreasing (progresses
      (run_streaming_analysis_failing emptyNewsStreamInputs
        .duringNews "network down")) ∧
    (lastEvent (run_streaming_analysis_failing emptyNewsStreamInputs
        .duringNews "network down")).map (fun e => e.progress) = some 0 := by
  constructor
  · simp [run_streaming_analysis_failing, run_streaming_analysis,
      emptyNewsStreamInputs, progresses, nondecreasing, calculate_progress,
      TOOL_SEQUENCE]
  · simp [run_streaming_analysis_failing, run_streaming_analysis,
      emptyNewsStreamInputs, lastEvent, calculate_progress, TOOL_SEQUENCE]

/-- C7 amended: on exception-free runs (plain and debate) the progress
values are non-decreasing and the stream ends in exactly one terminal
event, a COMPLETED/DEBATE_COMPLETED with progress exactly 1.0; on a run
interrupted by an exception the stream still ends in exactly one terminal
event, which is the ERROR event (or, when the failure point sits in a
skipped stage, the normal COMPLETED event), but that terminal ERROR can
carry a progress below — even strictly below — the previously yielded
value. -/
theorem stream_progress_props (inp : StreamInputs)
    (dinp : DebateStreamInputs) (fp : StreamFailPoint)
    (dfp : DebateFailPoint) (msg dmsg : String) :
    nondecreasing (progresses (run_streaming_analysis inp)) ∧
    countTerminal (eventTypes (run_streaming_analysis inp)) = 1 ∧
    (lastEvent (run_streaming_analysis inp)).map (fun e => e.event_type) =
      some "completed" ∧
    (lastEvent (run_streaming_analysis inp)).map (fun e => e.progress) =
      some 1 ∧
    nondecreasing (progresses (run_streaming_debate_analysis dinp)) ∧
    countTerminal (eventTypes (run_streaming_debate_analysis dinp)) = 1 ∧
    (lastEvent (run_streaming_debate_analysis dinp)).map
      (fun e => e.event_type) = some "debate_completed" ∧
    (lastEvent (run_streaming_debate_analysis dinp)).map
      (fun e => e.progress) = some 1 ∧
    countTerminal (eventTypes
      (run_streaming_analysis_failing inp fp msg)) = 1 ∧
    ((lastEvent (run_streaming_analysis_failing inp fp msg)).map
        (fun e => e.event_type) = some "error" ∨
      (lastEvent (run_streaming_analysis_failing inp fp msg)).map
        (fun e => e.event_type) = some "completed") ∧
    countTerminal (eventTypes
      (run_streaming_debate_analysis_failing dinp dfp dmsg)) = 1 ∧
    ((lastEvent (run_streaming_debate_analysis_failing dinp dfp dmsg)).map
        (fun e => e.event_type) = some "error" ∨
      (lastEvent (run_streaming_debate_analysis_failing dinp dfp dmsg)).map
        (fun e => e.event_type) = some "debate_completed") := by
  refine ⟨?_, ?_, ?_, ?_, ?_, ?_, ?_, ?_, ?_, ?_, ?_, ?_⟩
  · by_cases hh : inp.newsHeadlines.isEmpty <;>
      simp [run_streaming_analysis, progresses, nondecreasing, hh] <;>
      norm_num
  · by_cases hh : inp.newsHeadlines.isEmpty <;>
      simp [run_streaming_analysis, eventTypes, countTerminal, hh]
  · by_cases hh : inp.newsHeadlines.isEmpty <;>
      simp [run_streaming_analysis, lastEvent, hh]
  · by_cases hh : inp.newsHeadlines.isEmpty <;>
      simp [run_streaming_analysis, lastEvent, hh]
  · by_cases hh : dinp.headlines.isEmpty <;>
      simp [run_streaming_debate_analysis, progresses, nondecreasing, hh] <;>
      norm_num
  · by_cases hh : dinp.headlines.isEmpty <;>
      simp [run_streaming_debate_analysis, eventTypes, countTerminal, hh]
  · by_cases hh : dinp.headlines.isEmpty <;>
      simp [run_streaming_debate_analysis, lastEvent, hh]
  · by_cases hh : dinp.headlines.isEmpty <;>
      simp [run_streaming_debate_analysis, lastEvent, hh]
  · cases fp <;> by_cases hh : inp.newsHeadlines.isEmpty <;>
      simp [run_streaming_analysis_failing, run_streaming_analysis,
        eventTypes, countTerminal, hh]
  · cases fp <;> by_cases hh : inp.newsHeadlines.isEmpty <;>
      simp [run_streaming_analysis_failing, run_streaming_analysis,
        lastEvent, hh]
  · cases dfp <;> by_cases hh : dinp.headlines.isEmpty <;>
      simp [run_streaming_debate_analysis_failing,
        run_streaming_debate_analysis, debateFailPrefixLen, eventTypes,
        countTerminal, hh]
  · cases dfp <;> by_cases hh : dinp.headlines.isEmpty <;>
      simp [run_streaming_debate_analysis_failing,
        run_streaming_debate_analysis, debateFailPrefixLen, lastEvent, hh]

/-- C8: in `event_generator`, every cache write is preceded by at least as
many yielded COMPLETED events in every initial segment of the action trace
(the write happens only in the COMPLETED branch, after the yield), and a
consumer that abandons the stream before any COMPLETED event was yielded
never triggers a cache write. -/
theorem cache_write_after_completed_yield (events : List StreamEvent)
    (pulls n : Nat) :
    saveCount ((event_generator events pulls).take n) ≤
      completedYieldCount ((event_generator events pulls).take n) ∧
    ((∀ e ∈ events.take pulls, ¬(e.event_type = "completed")) →
      CacheAction.saveAnalysis ∉ event_generator events pulls) := by
  induction events generalizing pulls n with
  | nil =>
    constructor
    · cases pulls <;>
        simp [event_generator, saveCount, completedYieldCount]
    · intro _
      cases pulls <;> simp [event_generator]
  | cons e rest ih =>
    constructor
    · match pulls with
      | 0 => simp [event_generator, saveCount, completedYieldCount]
      | 1 =>
        match n with
        | 0 => simp [saveCount, completedYieldCount]
        | m + 1 =>
          simp [event_generator, saveCount, completedYieldCount,
            List.countP_cons]
      | p + 2 =>
        match n with
        | 0 => simp [saveCount, completedYieldCount]
        | m + 1 =>
          by_cases hc : (e.event_type = "completed" ∧ e.hasData = true)
          · have heg : event_generator (e :: rest) (p + 2) =
                CacheAction.yieldEvent e :: CacheAction.saveAnalysis ::
                  event_generator rest (p + 1) := by
              simp [event_generator, hc]
            rw [heg]
            match m with
            | 0 =>
              simp [saveCount, completedYieldCount, List.countP_cons, hc]
            | m2 + 1 =>
              have hih := (ih (p + 1) m2).1
              simp only [List.take_succ_cons]
              simp [saveCount, completedYieldCount, List.countP_cons, hc] at hih ⊢
              omega
          · have heg : event_generator (e :: rest) (p + 2) =
                CacheAction.yieldEvent e :: event_generator rest (p + 1) := by
              simp [event_generator, hc]
            rw [heg]
            have hih := (ih (p + 1) m).1
            simp only [List.take_succ_cons]
            simp [saveCount, completedYieldCount, List.countP_cons, hc] at hih ⊢
            omega
    · intro hnone
      match pulls with
      | 0 => simp [event_generator]
      | 1 => simp [event_generator]
      | p + 2 =>
        have hne : ¬(e.event_type = "completed") := by
          apply hnone
          simp [List.take_succ_cons]
        have heg : event_generator (e :: rest) (p + 2) =
            CacheAction.yieldEvent e :: event_generator rest (p + 1) := by
          simp [event_generator, hne]
        rw [heg]
        intro hmem
        rcases List.mem_cons.mp hmem with h | h
        · exact absurd h (by simp)
        · have := (ih (p + 1) 0).2 (by
            intro e2 he2
            apply hnone
            simp [List.take_succ_cons]
            right
            exact he2)
          exact this h

/-- C8 witness: a stream abandoned after only a STARTED event performs no
cache write. -/
theorem cache_write_after_completed_yield_witness :
    CacheAction.saveAnalysis ∉
      event_generator [{ event_type := "started", progress := 0 }] 5 :=
  (cache_write_after_completed_yield
    [{ event_type := "started", progress := 0 }] 5 0).2 (by simp)

end StockSense
